import Mathlib

/-!
Verification of the vid-creator frontend against its specification.

The definitions below are a shallow embedding of the JavaScript source:
  - `frontend/src/services/api.js` (API client: request bodies and
    response/error propagation),
  - `frontend/src/components/VideoUploadForm.jsx` (generation form),
  - `frontend/src/components/VideoList.jsx` (list updates on refresh/delete),
  - the background-replacement dialog component (`VideoReplaceBackground`),
  - the shared form-state context provider (`MainContextProvider`),
  - the repository's background-replacement configuration guide, which
    documents the creation response of the replace-background endpoint.

JavaScript objects with optional fields become `Option`-valued fields;
JavaScript truthiness on strings (`if (s)`) becomes `strTruthy`; fallible
operations return `Except`.
-/

namespace VidCreator

/-- JavaScript truthiness of an optional string value: `undefined`/`null`
and the empty string are falsy, every other string is truthy. -/
def strTruthy : Option String → Bool
  | none => false
  | some s => s ≠ ""

/-- An image file as the browser hands it to the form handlers: its MIME
`type`, whether it loads as an image (`loads = false` models the
`img.onerror` path), and its pixel dimensions (meaningful when it loads). -/
structure ImgFile where
  type : String
  loads : Bool
  width : Nat
  height : Nat
deriving DecidableEq, Repr

instance : Inhabited ImgFile := ⟨⟨"", false, 0, 0⟩⟩

/-! ### api.js: replaceVideoBackground — hex-colour conversion and request body -/

/-- Numeric value of one hexadecimal digit, `none` for a non-digit
(mirrors what `parseInt(…, 16)` accepts per character). -/
def hexDigitVal (c : Char) : Option Nat :=
  if '0' ≤ c ∧ c ≤ '9' then some (c.toNat - '0'.toNat)
  else if 'a' ≤ c ∧ c ≤ 'f' then some (c.toNat - 'a'.toNat + 10)
  else if 'A' ≤ c ∧ c ≤ 'F' then some (c.toNat - 'A'.toNat + 10)
  else none

/-- Accumulating tail of JavaScript `parseInt(s, 16)`: consumes further
hexadecimal digits, stopping at the first non-digit. -/
def parseIntHexGo (acc : Nat) : List Char → Nat
  | [] => acc
  | c :: rest =>
    match hexDigitVal c with
    | none => acc
    | some d => parseIntHexGo (16 * acc + d) rest

/-- JavaScript `parseInt(s, 16)` on a character list: the maximal prefix of
hexadecimal digits as a number, `none` standing for `NaN` when the first
character is not a hexadecimal digit. -/
def parseIntHex (cs : List Char) : Option Nat :=
  match cs with
  | [] => none
  | c :: rest =>
    match hexDigitVal c with
    | none => none
    | some d => some (parseIntHexGo d rest)

/-- JavaScript `s.replace('#', '')` with a plain-string pattern: removes the
first occurrence of `'#'` only. -/
def removeFirstHash : List Char → List Char
  | [] => []
  | c :: cs => if c = '#' then cs else c :: removeFirstHash cs

/-- The `bgColorRgb` value computed by `replaceVideoBackground` in api.js:
`null` when no colour is given (`if (bgColor)` — `null`, `undefined` and
`''` are falsy), otherwise the three-element array
`[parseInt(hex.substring(0,2),16), parseInt(hex.substring(2,4),16),
parseInt(hex.substring(4,6),16)]` after stripping the first `'#'`.
Each component is an `Option Nat` because `parseInt` can yield `NaN`. -/
def bgColorRgb (bgColor : Option String) : Option (List (Option Nat)) :=
  match bgColor with
  | none => none
  | some s =>
    if s = "" then none
    else
      let hex := removeFirstHash s.data
      some [parseIntHex (hex.take 2),
            parseIntHex ((hex.drop 2).take 2),
            parseIntHex ((hex.drop 4).take 2)]

/-- The constant `CHROMA_KEY_RGB` in api.js: `null`, meaning the backend
default chroma key is used. -/
def CHROMA_KEY_RGB : Option (List Nat) := none

/-- The JSON body `replaceVideoBackground` sends to
`POST /videos/{id}/replace-background`: `{bgColor, bgImage, chromaKey}`. -/
structure ReplaceBackgroundBody where
  bgColor : Option (List (Option Nat))
  bgImage : Option String
  chromaKey : Option (List Nat)
deriving DecidableEq, Repr

/-- The request body constructed by `replaceVideoBackground(videoId,
{bgColor, bgImage})` in api.js: `bgImage` is base64-converted when present
(`toDataUrl` abstracts `FileReader.readAsDataURL`), `bgColor` is converted
to an RGB array by `bgColorRgb`, and `chromaKey` is the constant
`CHROMA_KEY_RGB`. -/
def replaceVideoBackgroundBody (toDataUrl : String → String)
    (bgColor : Option String) (bgImage : Option String) : ReplaceBackgroundBody :=
  { bgColor := bgColorRgb bgColor
    bgImage := bgImage.map toDataUrl
    chromaKey := CHROMA_KEY_RGB }

/-! ### VideoReplaceBackground dialog (background-replacement form) -/

/-- The disabled condition of the background-replacement dialog's Submit
button: `(!selectedFile && !selectedColor) || !!error || loading`. -/
def bgSubmitDisabled (selectedFile : Option ImgFile) (selectedColor : Option String)
    (error : String) (loading : Bool) : Bool :=
  (selectedFile.isNone && !(strTruthy selectedColor)) || error ≠ "" || loading

/-- State of the background-replacement dialog touched by its file handler:
the selected file, the error message, and the preview URL (modelled by the
file the object URL points to). -/
structure BgFormState where
  selectedFile : Option ImgFile
  error : String
  previewUrl : Option ImgFile
deriving DecidableEq, Repr

/-- The `handleFileChange` handler of the background-replacement dialog:
clears the error, returns if no file was chosen, rejects any MIME type
other than `image/jpeg`/`image/jpg`, rejects files that fail to load
(`img.onerror`), rejects dimensions other than 1280x720 (also clearing the
selected file and preview), and otherwise selects the file. -/
def bgHandleFileChange (st : BgFormState) (file : Option ImgFile) : BgFormState :=
  let st1 : BgFormState := { st with error := "" }
  match file with
  | none => st1
  | some f =>
    if f.type ≠ "image/jpeg" ∧ f.type ≠ "image/jpg" then
      { st1 with error := "Please upload a valid JPG image." }
    else if ¬ f.loads then
      { st1 with error := "Invalid image file." }
    else if f.width ≠ 1280 ∨ f.height ≠ 720 then
      { st1 with error := "Image dimensions must be exactly 1280x720 pixels."
                 selectedFile := none
                 previewUrl := none }
    else
      { st1 with selectedFile := some f, previewUrl := some f }

/-- The creation response of the background-replacement endpoint as the
repository's configuration guide documents it (Status Flow: the API
returns `{ videoId: "new-id", status: "processing" }`); the dialog's
`handleSubmit` reads `result.videoId` from it. -/
structure BgReplaceResponse where
  videoId : String
  status : String
deriving DecidableEq, Repr

/-- Modelled from the repository's configuration guide (the backend handler
itself is not part of the frontend sources): the response returned for a
successful background-replacement request carries the newly created job's
id and the status string `"processing"`. -/
def backgroundReplacementResponse (newVideoId : String) : BgReplaceResponse :=
  { videoId := newVideoId, status := "processing" }

/-! ### VideoUploadForm (generation form) -/

/-- Outcome of the generation form's `handleSubmit`: either the submission
is rejected with a validation error message (and `onSubmit` is never
invoked, so no request is issued), or `onSubmit` is invoked with the
prompt, the images and the model. -/
inductive SubmitOutcome where
  | rejected (errorMsg : String)
  | submitted (prompt : String) (imageStart : ImgFile) (imageEnd : Option ImgFile)
      (model : Option String)
deriving DecidableEq, Repr

/-- The `handleSubmit` handler of `VideoUploadForm`: if
`!context.data.prompt || !image.start` it sets the validation error
`'Please provide both a prompt and an image'` and returns without calling
`onSubmit`; otherwise it calls `onSubmit({prompt, image, model})`. -/
def uploadFormHandleSubmit (promptVal : Option String)
    (imageStart imageEnd : Option ImgFile) (model : Option String) : SubmitOutcome :=
  if !(strTruthy promptVal) || imageStart.isNone then
    SubmitOutcome.rejected "Please provide both a prompt and an image"
  else
    SubmitOutcome.submitted (promptVal.getD "") (imageStart.getD default) imageEnd model

/-! ### api.js: error propagation of the six client operations -/

/-- A parsed JSON response body: its optional `error` and `message` string
properties (the ones the client's error paths read) and the rest of the
document, uninterpreted. -/
structure JsonBody where
  errorField : Option String
  messageField : Option String
  payload : String
deriving DecidableEq, Repr

/-- An HTTP response as the client observes it: the `ok` flag and the JSON
body, `none` when the body does not parse as JSON. -/
structure FetchResponse where
  ok : Bool
  json : Option JsonBody
deriving DecidableEq, Repr

/-- The message of the rejection raised by `response.json()` on a body that
is not valid JSON (only the success paths are exposed to it; the error
paths guard it with `.catch`). -/
def invalidJsonMsg : String := "Unexpected token in JSON"

/-- JavaScript `a || b` on an optional string `a`: the fallback when `a` is
absent or empty. -/
def jsOrStr (o : Option String) (fallback : String) : String :=
  if strTruthy o then o.getD "" else fallback

/-- The error object the client's failure paths work with:
`await response.json().catch(() => ({ error: 'Unknown error' }))`. -/
def caughtErrorJson (json : Option JsonBody) : JsonBody :=
  json.getD { errorField := some "Unknown error", messageField := none, payload := "" }

/-- Result of `generateVideo` given the fetch response: throws
`error.error || error.message || 'Failed to generate video'` when the
response is not ok, otherwise returns `response.json()`. -/
def generateVideoResult (resp : FetchResponse) : Except String JsonBody :=
  if resp.ok then
    match resp.json with
    | some j => Except.ok j
    | none => Except.error invalidJsonMsg
  else
    let e := caughtErrorJson resp.json
    Except.error (jsOrStr e.errorField (jsOrStr e.messageField "Failed to generate video"))

/-- Result of `getVideos`: throws `'Failed to fetch videos'` when the
response is not ok, otherwise returns `response.json()`. -/
def getVideosResult (resp : FetchResponse) : Except String JsonBody :=
  if resp.ok then
    match resp.json with
    | some j => Except.ok j
    | none => Except.error invalidJsonMsg
  else
    Except.error "Failed to fetch videos"

/-- Result of `getVideoStatus`: throws `'Failed to fetch video status'`
when the response is not ok, otherwise returns `response.json()`. -/
def getVideoStatusResult (resp : FetchResponse) : Except String JsonBody :=
  if resp.ok then
    match resp.json with
    | some j => Except.ok j
    | none => Except.error invalidJsonMsg
  else
    Except.error "Failed to fetch video status"

/-- Result of `refreshVideoUrl`: throws
`error.error || 'Failed to refresh video URL'` when the response is not
ok, otherwise returns `response.json()`. -/
def refreshVideoUrlResult (resp : FetchResponse) : Except String JsonBody :=
  if resp.ok then
    match resp.json with
    | some j => Except.ok j
    | none => Except.error invalidJsonMsg
  else
    Except.error (jsOrStr (caughtErrorJson resp.json).errorField "Failed to refresh video URL")

/-- Result of `deleteVideo`: throws `error.error || 'Failed to delete
video'` when the response is not ok, otherwise returns `response.json()`. -/
def deleteVideoResult (resp : FetchResponse) : Except String JsonBody :=
  if resp.ok then
    match resp.json with
    | some j => Except.ok j
    | none => Except.error invalidJsonMsg
  else
    Except.error (jsOrStr (caughtErrorJson resp.json).errorField "Failed to delete video")

/-- Result of `replaceVideoBackground`'s response handling: throws
`error.error || 'Failed to replace background'` when the response is not
ok, otherwise returns `response.json()`. -/
def replaceVideoBackgroundResult (resp : FetchResponse) : Except String JsonBody :=
  if resp.ok then
    match resp.json with
    | some j => Except.ok j
    | none => Except.error invalidJsonMsg
  else
    Except.error (jsOrStr (caughtErrorJson resp.json).errorField "Failed to replace background")

/-! ### api.js: generateVideo request body -/

/-- The JSON body `generateVideo` sends to `POST /generate`:
`{prompt, image, model}`, where `image` is the `imageData` object whose
keys appear in insertion order (start first, end second). -/
structure GenerateBody where
  prompt : String
  image : List (String × String)
  model : Option String
deriving DecidableEq, Repr

/-- The `imageData` object built by `generateVideo`: `imageData.start` is
set first when a start image is supplied, `imageData.end` second when an
end image is supplied; values are the base64 data URLs (`toDataUrl`
abstracts `FileReader.readAsDataURL`). -/
def generateImageData (toDataUrl : String → String)
    (imageStart imageEnd : Option String) : List (String × String) :=
  (match imageStart with
   | some f => [("start", toDataUrl f)]
   | none => []) ++
  (match imageEnd with
   | some f => [("end", toDataUrl f)]
   | none => [])

/-- The request body constructed by `generateVideo({prompt, image, model})`
in api.js: `JSON.stringify({ prompt, image: imageData, model })`. -/
def generateVideoBody (toDataUrl : String → String) (prompt : String)
    (imageStart imageEnd : Option String) (model : Option String) : GenerateBody :=
  { prompt := prompt
    image := generateImageData toDataUrl imageStart imageEnd
    model := model }

/-! ### VideoList.jsx: list updates on URL refresh and delete -/

/-- A video record as the list component renders it. -/
structure Video where
  id : String
  prompt : String
  status : String
  createdAt : String
  model : Option String
  error : Option String
  videoUrl : Option String
deriving DecidableEq, Repr

/-- The list update `handleRefreshUrl` applies after a successful refresh:
`prevVideos.map(video => video.id === videoId
  ? { ...video, videoUrl: result.videoUrl } : video)`. -/
def refreshUrlUpdate (videos : List Video) (videoId : String) (newUrl : String) :
    List Video :=
  videos.map fun v => if v.id = videoId then { v with videoUrl := some newUrl } else v

/-- The list update `handleDelete` applies after a successful delete:
`prevVideos.filter(video => video.id !== videoId)`. -/
def deleteUpdate (videos : List Video) (videoId : String) : List Video :=
  videos.filter fun v => v.id ≠ videoId

/-- Outcome of `handleDelete`: whether a delete request was issued to the
backend at all, and the resulting video list. -/
structure DeleteOutcome where
  requestIssued : Bool
  videos : List Video
deriving DecidableEq, Repr

/-- The `handleDelete` handler of `VideoList`: returns without any request
unless the user confirms the `confirm(...)` dialog; on a successful API
call it filters the deleted id out of the list; on an API error it leaves
the list unchanged (the error is alerted). -/
def handleDelete (confirmed : Bool) (apiSucceeds : Bool)
    (videos : List Video) (videoId : String) : DeleteOutcome :=
  if ¬ confirmed then ⟨false, videos⟩
  else if apiSucceeds then ⟨true, deleteUpdate videos videoId⟩
  else ⟨true, videos⟩

/-! ### Shared form-state context provider (MainContextProvider) -/

/-- One entry of the context's `inputs` object:
`{ key: key, value: value, format: format }`. -/
structure InputEntry where
  key : String
  value : String
  format : Option String
deriving DecidableEq, Repr

/-- JavaScript object property assignment `obj[k] = v` on an object
modelled as an insertion-ordered association list (JS object keys are
unique): replaces the value in place when the key exists, appends
otherwise. -/
def objSet {α : Type} : List (String × α) → String → α → List (String × α)
  | [], k, v => [(k, v)]
  | p :: rest, k, v => if p.1 = k then (k, v) :: rest else p :: objSet rest k v

/-- JavaScript `delete obj[k]`. -/
def objDelete {α : Type} (l : List (String × α)) (k : String) : List (String × α) :=
  l.filter fun p => p.1 ≠ k

/-- JavaScript property read `obj[k]`, `none` for an absent key. -/
def objLookup {α : Type} (l : List (String × α)) (k : String) : Option α :=
  (l.find? fun p => p.1 = k).map Prod.snd

/-- The context provider's `data` state: its plain string fields and the
`inputs` object keyed by id. -/
structure ContextData where
  entries : List (String × String)
  inputs : List (String × InputEntry)
deriving DecidableEq, Repr

/-- The provider's `updateValue(key, value, id, format)`: with a truthy
`id` it stores `{key, value, format}` under `id` in `inputs` when
`value !== ''` and deletes the `inputs` entry otherwise; without an `id`
it stores `value` under `key` in the data object when `value !== ''` and
deletes the key otherwise. -/
def updateValue (st : ContextData) (key value : String) (id : Option String)
    (format : Option String) : ContextData :=
  if strTruthy id then
    if value ≠ "" then
      { st with inputs := objSet st.inputs (id.getD "") ⟨key, value, format⟩ }
    else
      { st with inputs := objDelete st.inputs (id.getD "") }
  else
    if value ≠ "" then { st with entries := objSet st.entries key value }
    else { st with entries := objDelete st.entries key }

/-- The provider's `removeInputsByID(id)`: deletes every `inputs` entry
whose key contains `id` as a substring (`key.includes(id)`). -/
def removeInputsByID (st : ContextData) (id : String) : ContextData :=
  { st with inputs := st.inputs.filter fun p => ¬ (id.data <:+: p.1.data) }

/-- The provider's `resetData()`: restores `initialValues`. -/
def resetData (initialValues : ContextData) : ContextData := initialValues

/-- The provider's `resetInputsData()`: clears the `inputs` object. -/
def resetInputsData (st : ContextData) : ContextData := { st with inputs := [] }

/-- One call into the context provider's mutation API. -/
inductive ContextOp where
  | update (key value : String) (id : Option String) (format : Option String)
  | removeByID (id : String)
  | reset
  | resetInputs
deriving DecidableEq, Repr

/-- Interpretation of one context operation on the provider's state. -/
def applyOp (initialValues st : ContextData) : ContextOp → ContextData
  | .update k v id fmt => updateValue st k v id fmt
  | .removeByID id => removeInputsByID st id
  | .reset => resetData initialValues
  | .resetInputs => resetInputsData st

/-- Interpretation of a sequence of context operations. -/
def applyOps (initialValues st : ContextData) (ops : List ContextOp) : ContextData :=
  ops.foldl (applyOp initialValues) st

/-- The invariant of the shared form state: no stored entry holds the
empty string, neither in the plain data fields nor in the `inputs`
values. -/
def noEmptyValues (st : ContextData) : Prop :=
  (∀ p ∈ st.entries, p.2 ≠ "") ∧ (∀ p ∈ st.inputs, p.2.value ≠ "")

instance (st : ContextData) : Decidable (noEmptyValues st) := by
  unfold noEmptyValues; infer_instance

/-! ### VideoUploadForm: image validation (generation form) -/

/-- JavaScript `position || 'start'` used by the generation form's image
handler. -/
def positionKey : Option String → String
  | none => "start"
  | some p => if p = "" then "start" else p

/-- State of the generation form touched by `handleImageChange`: the
`image`, `preview` and `error` objects, each keyed by position. -/
structure GenFormState where
  image : List (String × Option ImgFile)
  preview : List (String × Option ImgFile)
  error : List (String × String)
deriving DecidableEq, Repr

/-- The `handleImageChange` handler of `VideoUploadForm`: rejects any MIME
type other than `image/jpeg`/`image/png` with a per-position error; for a
file that loads, rejects dimensions other than 1280x720 (clearing the
position's image and preview) and otherwise stores the file; a file that
fails to load changes nothing (the generation form installs no
`img.onerror` handler). -/
def genHandleImageChange (st : GenFormState) (file : Option ImgFile)
    (position : Option String) : GenFormState :=
  match file with
  | none => st
  | some f =>
    let pos := positionKey position
    if ¬ (f.type = "image/jpeg" ∨ f.type = "image/png") then
      { st with error := objSet st.error pos "Please upload a JPG or PNG file" }
    else if ¬ f.loads then
      st
    else if f.width ≠ 1280 ∨ f.height ≠ 720 then
      { st with error := objSet st.error pos "Image must be 1280x720 pixels"
                image := objSet st.image pos none
                preview := objSet st.preview pos none }
    else
      { st with error := objSet st.error pos ""
                image := objSet st.image pos (some f)
                preview := objSet st.preview pos (some f) }

/-! ### Shared helper lemmas -/

/-- A character with a hexadecimal digit value is not the hash sign. -/
theorem hexDigit_ne_hash {c : Char} {d : Nat} (h : hexDigitVal c = some d) :
    c ≠ '#' := by
  intro he
  subst he
  rw [show hexDigitVal '#' = none from by decide] at h
  exact Option.noConfusion h

/-! ### C1 -/

/-- C1, counterexample: the claim says the creation response of a
successful background-replacement request reports the new job as
`"Pending"`; the repository documents (and the dialog consumes) a response
whose status is the string `"processing"`, not `"Pending"`. -/
theorem bgReplace_creation_response_not_pending :
    (backgroundReplacementResponse "new-id").status = "processing"
    ∧ (backgroundReplacementResponse "new-id").status ≠ "Pending" := by
  exact ⟨rfl, by decide⟩

/-- C1, amended: for every successful background-replacement request, the
creation response contains the new job's identifier (`videoId`) and the
status `"processing"` (the code's initial in-flight status), not
`"Pending"`. -/
theorem bgReplace_creation_response_fields (newVideoId : String) :
    (backgroundReplacementResponse newVideoId).videoId = newVideoId
    ∧ (backgroundReplacementResponse newVideoId).status = "processing" :=
  ⟨rfl, rfl⟩

/-! ### C2 -/

/-- C2, counterexample: with a valid background image accepted by the
dialog's file handler and a colour picked as well, the Submit button is
enabled, and the request body sent by `replaceVideoBackground` carries
both a non-null `bgColor` and a non-null `bgImage` — the two are not
mutually exclusive. -/
theorem replaceBackground_both_backgrounds_sent :
    (bgHandleFileChange ⟨none, "", none⟩
        (some ⟨"image/jpeg", true, 1280, 720⟩)).selectedFile
      = some ⟨"image/jpeg", true, 1280, 720⟩
    ∧ bgSubmitDisabled (some ⟨"image/jpeg", true, 1280, 720⟩) (some "#00ff00") "" false
      = false
    ∧ (replaceVideoBackgroundBody (fun s => s) (some "#00ff00") (some "bg.jpg")).bgColor.isSome
      = true
    ∧ (replaceVideoBackgroundBody (fun s => s) (some "#00ff00") (some "bg.jpg")).bgImage.isSome
      = true := by
  refine ⟨by decide, by decide, ?_, rfl⟩
  rfl

/-- C2, amended: in the request body sent by `replaceVideoBackground`,
`bgImage` is non-null exactly when an image file was supplied and
`bgColor` is non-null exactly when a truthy (non-empty) colour string was
supplied; presence of one does not exclude the other, and when neither is
supplied both are null (background-default). -/
theorem replaceBackground_body_field_presence (toDataUrl : String → String)
    (bgColor bgImage : Option String) :
    ((replaceVideoBackgroundBody toDataUrl bgColor bgImage).bgImage.isSome
      = bgImage.isSome)
    ∧ ((replaceVideoBackgroundBody toDataUrl bgColor bgImage).bgColor.isSome
      = strTruthy bgColor) := by
  constructor
  · simp [replaceVideoBackgroundBody]
  · cases bgColor with
    | none => simp [replaceVideoBackgroundBody, bgColorRgb, strTruthy]
    | some s =>
      by_cases hs : s = "" <;>
        simp [replaceVideoBackgroundBody, bgColorRgb, strTruthy, hs]

/-! ### C3 -/

/-- C3: the generation form's `handleSubmit` rejects exactly the
submissions in which the prompt is absent/empty or no start image is
present, setting the validation error message and never invoking
`onSubmit`; and whenever `onSubmit` is invoked, a non-empty prompt and a
start image were present (and are the ones passed through). -/
theorem uploadForm_submit_validation (promptVal : Option String)
    (imageStart imageEnd : Option ImgFile) (model : Option String) :
    (uploadFormHandleSubmit promptVal imageStart imageEnd model
        = SubmitOutcome.rejected "Please provide both a prompt and an image"
      ↔ (strTruthy promptVal = false ∨ imageStart = none))
    ∧ (∀ p img e m,
        uploadFormHandleSubmit promptVal imageStart imageEnd model
          = SubmitOutcome.submitted p img e m →
        promptVal = some p ∧ p ≠ "" ∧ imageStart = some img) := by
  cases promptVal with
  | none => cases imageStart <;> simp [uploadFormHandleSubmit, strTruthy]
  | some s =>
    by_cases hs : s = ""
    · subst hs
      cases imageStart <;> simp [uploadFormHandleSubmit, strTruthy]
    · cases imageStart with
      | none => simp [uploadFormHandleSubmit, strTruthy, hs]
      | some img0 =>
        simp [uploadFormHandleSubmit, strTruthy, hs]
        intro p img e m hp himg he hm
        exact ⟨hp, fun hpe => hs (hp.trans hpe), himg⟩

/-! ### C4 -/

/-- C4: every API client operation on a JSON-bodied response throws exactly
when the HTTP response is not ok — when ok it returns the parsed JSON body
to the caller, when not ok it surfaces an error — so failures are thrown
to the caller of the triggering operation, never swallowed. -/
theorem api_throws_iff_not_ok (resp : FetchResponse) (j : JsonBody)
    (h : resp.json = some j) :
    (resp.ok = true →
      generateVideoResult resp = Except.ok j
      ∧ getVideosResult resp = Except.ok j
      ∧ getVideoStatusResult resp = Except.ok j
      ∧ refreshVideoUrlResult resp = Except.ok j
      ∧ deleteVideoResult resp = Except.ok j
      ∧ replaceVideoBackgroundResult resp = Except.ok j)
    ∧ (resp.ok = false →
      (∃ e, generateVideoResult resp = Except.error e)
      ∧ (∃ e, getVideosResult resp = Except.error e)
      ∧ (∃ e, getVideoStatusResult resp = Except.error e)
      ∧ (∃ e, refreshVideoUrlResult resp = Except.error e)
      ∧ (∃ e, deleteVideoResult resp = Except.error e)
      ∧ (∃ e, replaceVideoBackgroundResult resp = Except.error e)) := by
  obtain ⟨ok, json⟩ := resp
  simp only [FetchResponse.mk.injEq] at h
  subst h
  constructor
  · intro hok
    subst hok
    simp [generateVideoResult, getVideosResult, getVideoStatusResult,
      refreshVideoUrlResult, deleteVideoResult, replaceVideoBackgroundResult]
  · intro hok
    subst hok
    simp [generateVideoResult, getVideosResult, getVideoStatusResult,
      refreshVideoUrlResult, deleteVideoResult, replaceVideoBackgroundResult]

/-- C4, witness: a concrete ok response returns its parsed body, a
concrete failed response throws. -/
theorem api_throws_iff_not_ok_witness :
    generateVideoResult ⟨true, some ⟨some "boom", none, "body"⟩⟩
      = Except.ok ⟨some "boom", none, "body"⟩
    ∧ (∃ e, generateVideoResult ⟨false, some ⟨some "boom", none, "body"⟩⟩
      = Except.error e) :=
  ⟨((api_throws_iff_not_ok ⟨true, some ⟨some "boom", none, "body"⟩⟩
      ⟨some "boom", none, "body"⟩ rfl).1 rfl).1,
   ((api_throws_iff_not_ok ⟨false, some ⟨some "boom", none, "body"⟩⟩
      ⟨some "boom", none, "body"⟩ rfl).2 rfl).1⟩

/-! ### C5 -/

/-- C5: the list update applied after a successful URL refresh preserves
the list's length and order, replaces only the `videoUrl` field of the
videos whose id equals the refreshed id, and leaves every video with a
different id entirely unchanged. -/
theorem videoList_refreshUrl_frame (videos : List Video) (videoId newUrl : String) :
    (refreshUrlUpdate videos videoId newUrl).length = videos.length
    ∧ ∀ i : Nat, (refreshUrlUpdate videos videoId newUrl)[i]?
        = (videos[i]?.map fun v =>
            if v.id = videoId then { v with videoUrl := some newUrl } else v) := by
  refine ⟨by simp [refreshUrlUpdate], fun i => ?_⟩
  simp [refreshUrlUpdate]

/-! ### C7 -/

/-- C7: the body of every `generateVideo` request contains the key
`'start'` in its image object exactly when a start image was supplied and
the key `'end'` exactly when an end image was supplied, carries the start
frame first and the optional end frame second, and passes the prompt and
model arguments through unchanged. -/
theorem generateVideo_body_shape (toDataUrl : String → String) (prompt : String)
    (imageStart imageEnd : Option String) (model : Option String) :
    (("start" ∈ (generateVideoBody toDataUrl prompt imageStart imageEnd model).image.map Prod.fst)
      ↔ imageStart.isSome = true)
    ∧ (("end" ∈ (generateVideoBody toDataUrl prompt imageStart imageEnd model).image.map Prod.fst)
      ↔ imageEnd.isSome = true)
    ∧ (generateVideoBody toDataUrl prompt imageStart imageEnd model).prompt = prompt
    ∧ (generateVideoBody toDataUrl prompt imageStart imageEnd model).model = model
    ∧ (generateVideoBody toDataUrl prompt imageStart imageEnd model).image.map Prod.fst
      = (match imageStart with | some _ => ["start"] | none => [])
        ++ (match imageEnd with | some _ => ["end"] | none => []) := by
  cases imageStart <;> cases imageEnd <;>
    simp [generateVideoBody, generateImageData,
      show ("start" : String) ≠ "end" from by decide,
      show ("end" : String) ≠ "start" from by decide]

/-! ### C8 -/

/-- C8: no delete request is issued without an explicit confirmation, a
declined confirmation leaves the list untouched, and the list update after
a successful delete removes exactly the videos whose id equals the deleted
id — every other video is kept unchanged, in the original order (the
result is a sublist of the original list). -/
theorem videoList_delete (confirmed apiSucceeds : Bool)
    (videos : List Video) (videoId : String) :
    ((handleDelete confirmed apiSucceeds videos videoId).requestIssued = true →
      confirmed = true)
    ∧ (confirmed = false →
        handleDelete confirmed apiSucceeds videos videoId = ⟨false, videos⟩)
    ∧ (confirmed = true → apiSucceeds = true →
        (handleDelete confirmed apiSucceeds videos videoId).videos
          = deleteUpdate videos videoId)
    ∧ List.Sublist (deleteUpdate videos videoId) videos
    ∧ (∀ v : Video, (deleteUpdate videos videoId).count v
        = if v.id = videoId then 0 else videos.count v) := by
  refine ⟨?_, ?_, ?_, List.filter_sublist videos, ?_⟩
  · cases confirmed <;> simp [handleDelete]
  · intro hc; subst hc; simp [handleDelete]
  · intro hc ha; subst hc; subst ha; simp [handleDelete]
  · intro v
    by_cases hv : v.id = videoId
    · rw [if_pos hv]
      refine List.count_eq_zero.mpr ?_
      intro hmem
      rw [deleteUpdate, List.mem_filter] at hmem
      exact absurd hv (by simpa using hmem.2)
    · rw [if_neg hv]
      exact List.count_filter (by simpa using hv)

/-! ### C6 -/

/-- C6: for a colour given as six hexadecimal digits with or without a
leading `'#'`, `replaceVideoBackground` sends `bgColor` as the
three-element array whose components are the base-16 values of the three
digit pairs; when no colour is given, `bgColor` is sent as null. -/
theorem hexColor_rgb_conversion (s : String) (c0 c1 c2 c3 c4 c5 : Char)
    (d0 d1 d2 d3 d4 d5 : Nat)
    (hshape : s.data = ['#', c0, c1, c2, c3, c4, c5]
      ∨ s.data = [c0, c1, c2, c3, c4, c5])
    (h0 : hexDigitVal c0 = some d0) (h1 : hexDigitVal c1 = some d1)
    (h2 : hexDigitVal c2 = some d2) (h3 : hexDigitVal c3 = some d3)
    (h4 : hexDigitVal c4 = some d4) (h5 : hexDigitVal c5 = some d5) :
    bgColorRgb (some s)
      = some [some (16 * d0 + d1), some (16 * d2 + d3), some (16 * d4 + d5)]
    ∧ bgColorRgb none = none := by
  refine ⟨?_, rfl⟩
  have hne : s ≠ "" := by
    intro he
    subst he
    rcases hshape with hsh | hsh <;> exact List.noConfusion hsh
  have hdata : removeFirstHash s.data = [c0, c1, c2, c3, c4, c5] := by
    rcases hshape with hsh | hsh <;> rw [hsh] <;>
      simp [removeFirstHash, hexDigit_ne_hash h0, hexDigit_ne_hash h1,
        hexDigit_ne_hash h2, hexDigit_ne_hash h3, hexDigit_ne_hash h4,
        hexDigit_ne_hash h5]
  rw [bgColorRgb, if_neg hne, hdata]
  simp [parseIntHex, parseIntHexGo, h0, h1, h2, h3, h4, h5]

/-- C6, witness: the colour `'#00ab45'` is sent as `[0, 171, 69]`, and an
absent colour as null. -/
theorem hexColor_rgb_conversion_witness :
    bgColorRgb (some "#00ab45") = some [some 0, some 171, some 69]
    ∧ bgColorRgb none = none := by
  exact hexColor_rgb_conversion "#00ab45" '0' '0' 'a' 'b' '4' '5' 0 0 10 11 4 5
    (Or.inl rfl) (by decide) (by decide) (by decide) (by decide) (by decide)
    (by decide)

/-! ### C9 helpers -/

/-- Membership after a JavaScript-style property assignment: an element of
`objSet l k v` was already in `l` or is the assigned pair. -/
theorem mem_objSet {α : Type} {l : List (String × α)} {k : String} {v : α}
    {q : String × α} (h : q ∈ objSet l k v) : q ∈ l ∨ q = (k, v) := by
  induction l with
  | nil =>
    right
    simpa [objSet] using h
  | cons p rest ih =>
    rw [objSet] at h
    by_cases hp : p.1 = k
    · rw [if_pos hp] at h
      rcases List.mem_cons.mp h with h1 | h2
      · right; exact h1
      · left; exact List.mem_cons_of_mem _ h2
    · rw [if_neg hp] at h
      rcases List.mem_cons.mp h with h1 | h2
      · left; exact h1 ▸ List.mem_cons_self _ _
      · rcases ih h2 with h3 | h4
        · left; exact List.mem_cons_of_mem _ h3
        · right; exact h4

/-- Preservation of the no-empty-values invariant by a single context
operation (the reset operation needs the invariant of the initial
values). -/
theorem noEmptyValues_applyOp (initialValues st : ContextData) (op : ContextOp)
    (hinit : noEmptyValues initialValues) (hst : noEmptyValues st) :
    noEmptyValues (applyOp initialValues st op) := by
  obtain ⟨he, hi⟩ := hst
  cases op with
  | update k v id fmt =>
    rw [applyOp, updateValue]
    by_cases hid : strTruthy id = true
    · rw [if_pos hid]
      by_cases hv : v = ""
      · rw [if_neg (by simp [hv])]
        refine ⟨he, fun p hp => hi p ?_⟩
        rw [objDelete] at hp
        exact List.mem_of_mem_filter hp
      · rw [if_pos hv]
        refine ⟨he, fun p hp => ?_⟩
        rcases mem_objSet hp with h1 | h2
        · exact hi p h1
        · rw [h2]; exact hv
    · rw [if_neg hid]
      by_cases hv : v = ""
      · rw [if_neg (by simp [hv])]
        refine ⟨fun p hp => he p ?_, hi⟩
        rw [objDelete] at hp
        exact List.mem_of_mem_filter hp
      · rw [if_pos hv]
        refine ⟨fun p hp => ?_, hi⟩
        rcases mem_objSet hp with h1 | h2
        · exact he p h1
        · rw [h2]; exact hv
  | removeByID id =>
    rw [applyOp, removeInputsByID]
    exact ⟨he, fun p hp => hi p (List.mem_of_mem_filter hp)⟩
  | reset =>
    rw [applyOp, resetData]
    exact hinit
  | resetInputs =>
    rw [applyOp, resetInputsData]
    exact ⟨he, by simp⟩

/-- Preservation of the no-empty-values invariant by any sequence of
context operations. -/
theorem noEmptyValues_applyOps (initialValues : ContextData)
    (hinit : noEmptyValues initialValues) :
    ∀ (ops : List ContextOp) (st : ContextData), noEmptyValues st →
      noEmptyValues (applyOps initialValues st ops) := by
  intro ops
  induction ops with
  | nil => exact fun st hst => hst
  | cons op rest ih =>
    intro st hst
    exact ih _ (noEmptyValues_applyOp initialValues st op hinit hst)

/-! ### C9 -/

/-- C9: starting from initial values with no empty entry, after any
sequence of `updateValue`, `removeInputsByID`, `resetData` and
`resetInputsData` operations every stored entry of the shared form state
has a non-empty value; moreover `updateValue` with the empty string
removes the addressed key from the data object (resp. the addressed
`inputs` entry) instead of storing the empty string. -/
theorem context_no_empty_values (initialValues : ContextData)
    (ops : List ContextOp) (h : noEmptyValues initialValues) :
    noEmptyValues (applyOps initialValues initialValues ops)
    ∧ ∀ (st : ContextData) (key : String) (fmt : Option String),
        (∀ p ∈ (updateValue st key "" none fmt).entries, p.1 ≠ key)
        ∧ ∀ i : String, i ≠ "" →
            ∀ p ∈ (updateValue st key "" (some i) fmt).inputs, p.1 ≠ i := by
  refine ⟨noEmptyValues_applyOps initialValues h ops initialValues h, ?_⟩
  intro st key fmt
  constructor
  · intro p hp
    have heq : updateValue st key "" none fmt
        = { st with entries := objDelete st.entries key } := by
      rw [updateValue, if_neg (by simp [strTruthy]), if_neg (by simp)]
    rw [heq] at hp
    have hp2 : p ∈ st.entries.filter (fun q => decide (q.1 ≠ key)) := hp
    simpa using List.of_mem_filter hp2
  · intro i hi p hp
    have heq : updateValue st key "" (some i) fmt
        = { st with inputs := objDelete st.inputs i } := by
      rw [updateValue, if_pos (by simp [strTruthy, hi]), if_neg (by simp)]
      rfl
    rw [heq] at hp
    have hp2 : p ∈ st.inputs.filter (fun q => decide (q.1 ≠ i)) := hp
    simpa using List.of_mem_filter hp2

/-- C9, witness: a concrete history — store a prompt, then clear it with
the empty string — leaves a state in which every present entry has a
non-empty value. -/
theorem context_no_empty_values_witness :
    noEmptyValues (applyOps ⟨[("model", "gemini-veo-31-fast")], []⟩
      ⟨[("model", "gemini-veo-31-fast")], []⟩
      [ContextOp.update "prompt" "a cat" none none,
       ContextOp.update "prompt" "" none none]) :=
  (context_no_empty_values ⟨[("model", "gemini-veo-31-fast")], []⟩
    [ContextOp.update "prompt" "a cat" none none,
     ContextOp.update "prompt" "" none none] (by decide)).1

/-! ### C10 helpers -/

/-- Reading back the key just assigned by a JavaScript-style property
assignment yields the assigned value. -/
theorem objLookup_objSet {α : Type} (l : List (String × α)) (k : String) (v : α) :
    objLookup (objSet l k v) k = some v := by
  induction l with
  | nil => simp [objSet, objLookup, List.find?]
  | cons p rest ih =>
    rw [objSet]
    by_cases hp : p.1 = k
    · rw [if_pos hp]
      simp [objLookup, List.find?]
    · rw [if_neg hp]
      simp only [objLookup] at ih ⊢
      rw [List.find?_cons_of_neg _ (by simpa using hp)]
      exact ih

/-- Case-by-case value of the background-replacement dialog's file
handler. -/
theorem bgHandleFileChange_spec (st : BgFormState) (f : ImgFile) :
    bgHandleFileChange st (some f) =
      if f.type ≠ "image/jpeg" ∧ f.type ≠ "image/jpg" then
        { st with error := "Please upload a valid JPG image." }
      else if ¬ f.loads then { st with error := "Invalid image file." }
      else if f.width ≠ 1280 ∨ f.height ≠ 720 then
        { selectedFile := none
          error := "Image dimensions must be exactly 1280x720 pixels."
          previewUrl := none }
      else { selectedFile := some f, error := "", previewUrl := some f } :=
  rfl

/-- Case-by-case value of the generation form's image handler on a chosen
file. -/
theorem genHandleImageChange_spec (st : GenFormState) (f : ImgFile)
    (position : Option String) :
    genHandleImageChange st (some f) position =
      if ¬ (f.type = "image/jpeg" ∨ f.type = "image/png") then
        { st with error := objSet st.error (positionKey position) "Please upload a JPG or PNG file" }
      else if ¬ f.loads then st
      else if f.width ≠ 1280 ∨ f.height ≠ 720 then
        { st with
            error := objSet st.error (positionKey position) "Image must be 1280x720 pixels"
            image := objSet st.image (positionKey position) none
            preview := objSet st.preview (positionKey position) none }
      else
        { st with
            error := objSet st.error (positionKey position) ""
            image := objSet st.image (positionKey position) (some f)
            preview := objSet st.preview (positionKey position) (some f) } :=
  rfl

/-! ### C10 -/

/-- C10: from a state with no file selected, the background-replacement
dialog's file handler accepts a file exactly when its MIME type is
`image/jpeg` or `image/jpg`, it loads, and its dimensions are exactly
1280x720; for every other file the selected file stays unset and an error
message is set — while the generation form does accept a 1280x720 PNG
file. -/
theorem bgForm_file_validation (st : BgFormState) (f : ImgFile)
    (h : st.selectedFile = none) :
    ((bgHandleFileChange st (some f)).selectedFile = some f ↔
      ((f.type = "image/jpeg" ∨ f.type = "image/jpg")
        ∧ f.loads = true ∧ f.width = 1280 ∧ f.height = 720))
    ∧ (¬ ((f.type = "image/jpeg" ∨ f.type = "image/jpg")
        ∧ f.loads = true ∧ f.width = 1280 ∧ f.height = 720) →
        (bgHandleFileChange st (some f)).selectedFile = none
        ∧ (bgHandleFileChange st (some f)).error ≠ "")
    ∧ (∀ (gst : GenFormState) (g : ImgFile),
        g.type = "image/png" → g.loads = true → g.width = 1280 → g.height = 720 →
        objLookup (genHandleImageChange gst (some g) none).image "start"
          = some (some g)) := by
  have hgen : ∀ (gst : GenFormState) (g : ImgFile),
      g.type = "image/png" → g.loads = true → g.width = 1280 → g.height = 720 →
      objLookup (genHandleImageChange gst (some g) none).image "start"
        = some (some g) := by
    intro gst g hgt hgl hgw hgh
    rw [genHandleImageChange_spec, if_neg (not_not_intro (Or.inr hgt)),
      if_neg (not_not_intro hgl),
      if_neg (not_or.mpr ⟨not_not_intro hgw, not_not_intro hgh⟩)]
    exact objLookup_objSet gst.image "start" (some g)
  obtain ⟨sf, serr, sprev⟩ := st
  replace h : sf = none := h
  subst h
  by_cases h1 : f.type ≠ "image/jpeg" ∧ f.type ≠ "image/jpg"
  · have hres : bgHandleFileChange ⟨none, serr, sprev⟩ (some f)
        = ⟨none, "Please upload a valid JPG image.", sprev⟩ := by
      rw [bgHandleFileChange_spec, if_pos h1]
    rw [hres]
    refine ⟨?_, fun _ => ⟨rfl, (by decide : "Please upload a valid JPG image." ≠ "")⟩, hgen⟩
    constructor
    · intro hsf; exact Option.noConfusion hsf
    · rintro ⟨htype, -⟩
      rcases htype with ht | ht
      · exact absurd ht h1.1
      · exact absurd ht h1.2
  · have htype : f.type = "image/jpeg" ∨ f.type = "image/jpg" := by
      rcases not_and_or.mp h1 with hb | hb
      · exact Or.inl (not_not.mp hb)
      · exact Or.inr (not_not.mp hb)
    by_cases h2 : f.loads = true
    · by_cases h3 : f.width ≠ 1280 ∨ f.height ≠ 720
      · have hres : bgHandleFileChange ⟨none, serr, sprev⟩ (some f)
            = ⟨none, "Image dimensions must be exactly 1280x720 pixels.", none⟩ := by
          rw [bgHandleFileChange_spec, if_neg h1, if_neg (not_not_intro h2),
            if_pos h3]
        rw [hres]
        refine ⟨?_, fun _ => ⟨rfl, (by decide : "Image dimensions must be exactly 1280x720 pixels." ≠ "")⟩, hgen⟩
        constructor
        · intro hsf; exact Option.noConfusion hsf
        · rintro ⟨-, -, hw, hh⟩
          rcases h3 with hbad | hbad
          · exact absurd hw hbad
          · exact absurd hh hbad
      · have hw : f.width = 1280 := not_not.mp fun hn => h3 (Or.inl hn)
        have hh : f.height = 720 := not_not.mp fun hn => h3 (Or.inr hn)
        have hres : bgHandleFileChange ⟨none, serr, sprev⟩ (some f)
            = ⟨some f, "", some f⟩ := by
          rw [bgHandleFileChange_spec, if_neg h1, if_neg (not_not_intro h2),
            if_neg h3]
        rw [hres]
        refine ⟨?_, fun hn => absurd ⟨htype, h2, hw, hh⟩ hn, hgen⟩
        exact ⟨fun _ => ⟨htype, h2, hw, hh⟩, fun _ => rfl⟩
    · have hres : bgHandleFileChange ⟨none, serr, sprev⟩ (some f)
          = ⟨none, "Invalid image file.", sprev⟩ := by
        rw [bgHandleFileChange_spec, if_neg h1, if_pos h2]
      rw [hres]
      refine ⟨?_, fun _ => ⟨rfl, (by decide : "Invalid image file." ≠ "")⟩, hgen⟩
      constructor
      · intro hsf; exact Option.noConfusion hsf
      · rintro ⟨-, hl, -⟩
        exact absurd hl h2

/-- C10, witness: a 1280x720 JPEG is accepted by the background dialog
from the empty state, and a 1280x720 PNG is rejected there while the
generation form accepts it. -/
theorem bgForm_file_validation_witness :
    (bgHandleFileChange ⟨none, "", none⟩
        (some ⟨"image/jpeg", true, 1280, 720⟩)).selectedFile
      = some ⟨"image/jpeg", true, 1280, 720⟩
    ∧ ((bgHandleFileChange ⟨none, "", none⟩
        (some ⟨"image/png", true, 1280, 720⟩)).selectedFile = none
      ∧ (bgHandleFileChange ⟨none, "", none⟩
        (some ⟨"image/png", true, 1280, 720⟩)).error ≠ "")
    ∧ objLookup (genHandleImageChange ⟨[], [], []⟩
        (some ⟨"image/png", true, 1280, 720⟩) none).image "start"
      = some (some ⟨"image/png", true, 1280, 720⟩) := by
  refine ⟨?_, ?_, ?_⟩
  · exact (bgForm_file_validation ⟨none, "", none⟩ ⟨"image/jpeg", true, 1280, 720⟩
      rfl).1.mpr (by decide)
  · exact (bgForm_file_validation ⟨none, "", none⟩ ⟨"image/png", true, 1280, 720⟩
      rfl).2.1 (by decide)
  · exact (bgForm_file_validation ⟨none, "", none⟩ ⟨"image/png", true, 1280, 720⟩
      rfl).2.2 ⟨[], [], []⟩ ⟨"image/png", true, 1280, 720⟩ rfl rfl rfl rfl

end VidCreator
